import Mathlib

/-!
# Verification of the Winfigy front-end document-analysis pipeline

Shallow embedding of the core logic of `src/App.js` (the only component
mounted by `src/index.js`; `FileUpload.js` and `ChatHistory.js` are not
imported anywhere and are dead code):

* `validateFile`            — `App.js` lines 59-70
* `finalQuery`              — `App.js` line 169
* `handleFileChange`        — `App.js` lines 133-144
* `handleUploadAndAnalyze`  — `App.js` lines 146-222, with the three awaited
  I/O calls (`upload`, `insertChat`, `fetch`) replaced by an oracle `Env`
  whose `Except.error` case models a thrown/rejected promise, and the
  network effects recorded as an explicit `Event` trace
* `myChats` / `selectedChat` / `renderMain` / `displayedStatus`
  — `App.js` lines 122-131 and 319-334

JavaScript truthiness of optional strings (`a || b`, `if (!x)`) is modelled
by `jsStrTruthy` / `jsOrOptStr` / `jsOrStr` (undefined/null and the empty
string are falsy).  Numbers are modelled as `Nat` (byte counts, HTTP status)
and `ℚ` (megabyte arithmetic); `Number.prototype.toFixed(2)` is modelled by
`toFixed2` (round half up, exact on the dyadic values a byte count
divided by 1024² can take).
-/

namespace Winfigy

/-- A browser `File` object: the fields the source reads (`name`, `size` in
bytes, declared MIME `type`). -/
structure JsFile where
  name : String
  size : Nat
  type : String
deriving Repr, DecidableEq

/-- One row of the `chats` table as delivered by the `GET_MY_HISTORY_SUB`
subscription (`App.js` lines 39-52): fields `id`, `file_name`, `status`,
`analysis_result`, `created_at`, `file_id`, `user_id`, `query`. -/
structure Chat where
  id : String
  file_name : String
  status : String
  analysis_result : Option String
  created_at : Nat
  file_id : String
  user_id : String
  query : String
deriving Repr, DecidableEq

/-- JavaScript truthiness of a possibly-absent string: `undefined`/`null`
and `""` are falsy. -/
def jsStrTruthy : Option String → Bool
  | none => false
  | some v => !(v = "")

/-- JavaScript `a || b` on two possibly-absent strings. -/
def jsOrOptStr (a b : Option String) : Option String :=
  if jsStrTruthy a then a else b

/-- JavaScript `a || b` where `b` is a string literal fallback. -/
def jsOrStr (a : Option String) (b : String) : String :=
  match a with
  | none => b
  | some v => if v = "" then b else v

/-- `Number.prototype.toFixed(2)`, modelled on `ℚ` by rounding half up to a
hundredth and printing two decimal digits. -/
def toFixed2 (q : ℚ) : String :=
  let h : Int := ⌊q * 100 + 1 / 2⌋
  let whole := h / 100
  let frac := (h % 100).toNat
  toString whole ++ "." ++ (if frac < 10 then "0" ++ toString frac else toString frac)

/-- The `options` argument of `validateFile`. -/
structure ValidateOptions where
  maxSizeMB : ℚ
  allowedTypes : List String
deriving Repr, DecidableEq

/-- The defaults destructured at `App.js` line 60, which are also exactly the
options passed at line 135. -/
def defaultValidateOptions : ValidateOptions :=
  { maxSizeMB := 10, allowedTypes := ["application/pdf"] }

/-- The `{ valid, error }` record returned by `validateFile`. -/
structure ValidationResult where
  valid : Bool
  error : Option String
deriving Repr, DecidableEq

/-- `validateFile` (`App.js` lines 59-70): checks presence, then size in MB
against `maxSizeMB`, then MIME type against `allowedTypes`. -/
def validateFile (file : Option JsFile) (options : ValidateOptions) : ValidationResult :=
  match file with
  | none => { valid := false, error := some "No file selected" }
  | some f =>
    let fileSizeMB : ℚ := (f.size : ℚ) / (1024 * 1024)
    if fileSizeMB > options.maxSizeMB then
      { valid := false
        error := some ("File size exceeds " ++ toString options.maxSizeMB ++ "MB limit ("
          ++ toFixed2 fileSizeMB ++ "MB)") }
    else if !(options.allowedTypes.contains f.type) then
      { valid := false
        error := some ("File type not allowed. Accepted: "
          ++ String.intercalate ", " options.allowedTypes) }
    else
      { valid := true, error := none }

/-- The `PROGRESS_MESSAGES` table (`App.js` lines 80-86). -/
def PROGRESS_MESSAGES_uploading : String := "Uploading file to secure storage..."

def PROGRESS_MESSAGES_queueing : String := "Creating analysis record..."

def PROGRESS_MESSAGES_processing : String := "Sending to AI agents..."

def PROGRESS_MESSAGES_error : String := "Upload failed. Please try again."

/-- The ASCII part of the ECMAScript white-space set used by
`String.prototype.trim` (space, tab, line feed, carriage return, vertical
tab, form feed). -/
def jsWhitespace (c : Char) : Bool :=
  c = ' ' || c = '\t' || c = '\n' || c = '\r' || c = '\x0b' || c = '\x0c'

/-- `String.prototype.trim`: drop leading and trailing whitespace. -/
def jsTrim (s : String) : String :=
  String.mk (((s.data.dropWhile jsWhitespace).reverse.dropWhile jsWhitespace).reverse)

/-- `finalQuery` (`App.js` line 169): `userQuery.trim() || "Analyze financial
trends and risks"` — the empty trimmed string is falsy, so the fixed default
is substituted exactly then. -/
def finalQuery (userQuery : String) : String :=
  if jsTrim userQuery = "" then "Analyze financial trends and risks" else jsTrim userQuery

/-- The client-local component state of `App` that the pipeline touches
(`App.js` lines 112-118). -/
structure AppState where
  isProcessing : Bool
  selectedFile : Option JsFile
  userQuery : String
  uploadProgress : Nat
  progressMessage : String
  selectedChatId : Option String
deriving Repr, DecidableEq

/-- Observable external effects of the handlers: the two network writes the
code can issue (file upload, `INSERT_CHAT` mutation), the POST to the
analysis service, the registry mutations the code never issues (kept in the
vocabulary so that their absence is a statement about the trace), and
`alert`. -/
inductive Event where
  | uploadCall (file : JsFile)
  | insertChat (file_id : String) (file_name : String) (status : String) (query : String)
  | triggerCall (chat_id : String) (file_id : String) (user_id : String) (query : String)
  | deleteChat (id : String)
  | updateChat (id : String) (status : String)
  | alertMsg (message : String)
deriving Repr, DecidableEq

/-- The row written by the `INSERT_CHAT` GraphQL document of `App.js`
(lines 26-37): the document hard-codes `status: "pending"`; `file_id`,
`file_name` and `query` are its only variables. -/
def INSERT_CHAT_event (file_id file_name query : String) : Event :=
  Event.insertChat file_id file_name "pending" query

/-- `uploadResult.file` — carries the storage id. -/
structure StoredFileMeta where
  id : String
deriving Repr, DecidableEq

/-- Shape of `await upload({ file })` when it resolves: the source reads
`isError`, `error` (an error object, modelled by its message; present iff
`some`), `file?.id` and `id`. -/
structure UploadResult where
  isError : Bool
  error : Option String
  file : Option StoredFileMeta
  id : Option String
deriving Repr, DecidableEq

/-- Shape of `await insertChat(...)` when it resolves: the GraphQL `errors`
array (messages; `some` iff the field is present — `if (errors)`) and the
collapsed optional chain `mutationData?.insert_chats_one?.id`. -/
structure InsertResult where
  errors : Option (List String)
  insertedId : Option String
deriving Repr, DecidableEq

/-- Shape of `await fetch(RENDER_API_URL, ...)` when it resolves: the HTTP
status and the body text (`none` models `response.text()` rejecting, which
the source maps to `'Unknown error'`). -/
structure FetchResponse where
  status : Nat
  text : Option String
deriving Repr, DecidableEq

/-- `Response.ok`: status in the inclusive range 200-299. -/
def FetchResponse.respOk (r : FetchResponse) : Bool :=
  decide (200 ≤ r.status) && decide (r.status < 300)

/-- Oracle for the three awaited I/O operations of one submission:
`Except.error m` models the promise rejecting with an error whose message
is `m` (caught by the `try`/`catch` of `App.js` lines 156-216). -/
structure Env where
  upload : Except String UploadResult
  insert : Except String InsertResult
  fetchTrigger : Except String FetchResponse

/-- The alert written by the `catch` block (`App.js` line 215). -/
def errorAlert (msg : String) : Event :=
  Event.alertMsg ("❌ Error: " ++ msg ++ "\n\nCheck browser console (F12) for details.")

/-- The `catch`+`finally` blocks (`App.js` lines 213-221): alert, set the
progress message to `PROGRESS_MESSAGES.error`, clear `isProcessing`.  The
DOM file-input reset at line 220 touches no React state. -/
def failSubmission (s : AppState) (evs : List Event) (msg : String) : AppState × List Event :=
  ({ s with progressMessage := PROGRESS_MESSAGES_error, isProcessing := false },
    evs ++ [errorAlert msg])

/-- `handleUploadAndAnalyze` (`App.js` lines 146-222) as a pure function
from the I/O oracle, the session `userId` and the pre-call state to the
post-call state and the trace of external effects, following the source
line by line. -/
def handleUploadAndAnalyze (env : Env) (userId : Option String) (s : AppState) :
    AppState × List Event :=
  match s.selectedFile, userId with
  | none, _ =>
      (s, [Event.alertMsg "Please select a file and ensure you're logged in."])
  | some _, none =>
      (s, [Event.alertMsg "Please select a file and ensure you're logged in."])
  | some selectedFile, some uid =>
    let s1 : AppState :=
      { s with isProcessing := true, progressMessage := PROGRESS_MESSAGES_uploading,
               uploadProgress := 10 }
    let evs1 : List Event := [Event.uploadCall selectedFile]
    match env.upload with
    | Except.error e => failSubmission s1 evs1 e
    | Except.ok uploadResult =>
      if uploadResult.isError || uploadResult.error.isSome then
        failSubmission s1 evs1 (jsOrStr uploadResult.error "File upload failed")
      else
        match jsOrOptStr (uploadResult.file.map StoredFileMeta.id) uploadResult.id with
        | none => failSubmission s1 evs1 "Failed to get file ID after upload"
        | some fileId =>
          if fileId = "" then
            failSubmission s1 evs1 "Failed to get file ID after upload"
          else
            let s2 : AppState :=
              { s1 with uploadProgress := 50, progressMessage := PROGRESS_MESSAGES_queueing }
            let evs2 : List Event :=
              evs1 ++ [INSERT_CHAT_event fileId selectedFile.name (finalQuery s.userQuery)]
            match env.insert with
            | Except.error e => failSubmission s2 evs2 e
            | Except.ok mutationResult =>
              if mutationResult.errors.isSome then
                failSubmission s2 evs2 ("Database error: "
                  ++ jsOrStr (mutationResult.errors.getD []).head? "Unknown database error")
              else
                match mutationResult.insertedId with
                | none => failSubmission s2 evs2 "Failed to create analysis record"
                | some chatId =>
                  if chatId = "" then
                    failSubmission s2 evs2 "Failed to create analysis record"
                  else
                    let s3 : AppState :=
                      { s2 with uploadProgress := 75,
                                progressMessage := PROGRESS_MESSAGES_processing }
                    let evs3 : List Event :=
                      evs2 ++ [Event.triggerCall chatId fileId uid (finalQuery s.userQuery)]
                    match env.fetchTrigger with
                    | Except.error e => failSubmission s3 evs3 e
                    | Except.ok response =>
                      if !response.respOk then
                        failSubmission s3 evs3 ("Analysis service failed: "
                          ++ toString response.status ++ " - "
                          ++ response.text.getD "Unknown error")
                      else
                        ({ s3 with uploadProgress := 0, progressMessage := "",
                                   selectedChatId := some chatId, selectedFile := none,
                                   userQuery := "", isProcessing := false },
                          evs3)

/-- `handleFileChange` (`App.js` lines 133-144): validate; on failure alert
and keep the previous draft; on success store the file and reset the
progress indicators. -/
def handleFileChange (file : Option JsFile) (s : AppState) : AppState × List Event :=
  let validation := validateFile file defaultValidateOptions
  if !validation.valid then
    (s, [Event.alertMsg (validation.error.getD "")])
  else
    ({ s with selectedFile := file, uploadProgress := 0, progressMessage := "" }, [])

/-- `myChats` (`App.js` line 129): `data?.chats?.filter(chat => chat.user_id
=== userId) || []`.  `userId` is `none` when unauthenticated, and `===`
against `null` is false for every row. -/
def myChats (data : Option (List Chat)) (userId : Option String) : List Chat :=
  (data.getD []).filter (fun chat => some chat.user_id == userId)

/-- `selectedChat` (`App.js` line 131): pure lookup of the stored identifier
in the live filtered collection; `find` misses give `null`. -/
def selectedChat (chats : List Chat) (selectedChatId : Option String) : Option Chat :=
  chats.find? (fun c => some c.id == selectedChatId)

/-- The two mutually exclusive main views (`App.js` lines 319-334). -/
inductive MainView where
  | chatWorkspace (chat : Chat)
  | uploadWorkspace
deriving Repr, DecidableEq

/-- One render of the main content area (`App.js` lines 319-334):
`selectedChat ? <ChatWorkspace chat={selectedChat}/> : <UploadWorkspace/>`,
where `selectedChat` is recomputed from the current subscription `data` on
every render. -/
def renderMain (data : Option (List Chat)) (userId : Option String)
    (selectedChatId : Option String) : MainView :=
  match selectedChat (myChats data userId) selectedChatId with
  | some chat => MainView.chatWorkspace chat
  | none => MainView.uploadWorkspace

/-- The status string the rendered view displays: `ChatWorkspace` passes
`chat.status` to `StatusBadge` (`App.js` line 1213); the upload workspace
displays no job status. -/
def displayedStatus (data : Option (List Chat)) (userId : Option String)
    (selectedChatId : Option String) : Option String :=
  match renderMain data userId selectedChatId with
  | MainView.chatWorkspace chat => some chat.status
  | MainView.uploadWorkspace => none

/-- What the subscription hook hands to the UI (`App.js` lines 122-129 and
267-274): the filtered rows plus the channel's own `loading` and `error`
flags, passed through unchanged to the sidebar. -/
structure SubscriptionView where
  chats : List Chat
  subLoading : Bool
  subError : Option String
deriving Repr, DecidableEq

/-- The live job projector: filtered rows and the channel flags. -/
def projector (data : Option (List Chat)) (subLoading : Bool) (subError : Option String)
    (userId : Option String) : SubscriptionView :=
  { chats := myChats data userId, subLoading := subLoading, subError := subError }

/-- Snapshot ordering `created_at` descending, as requested by
`GET_MY_HISTORY_SUB` (`order_by: { created_at: desc }`). -/
def createdDesc (a b : Chat) : Prop := b.created_at ≤ a.created_at

instance : DecidableRel createdDesc := fun a b =>
  inferInstanceAs (Decidable (b.created_at ≤ a.created_at))

/-- Registry-write events (`insert`, `delete`, `update` on `chats`). -/
def Event.isRegistryWrite : Event → Bool
  | Event.insertChat _ _ _ _ => true
  | Event.deleteChat _ => true
  | Event.updateChat _ _ => true
  | _ => false

def Event.isInsert : Event → Bool
  | Event.insertChat _ _ _ _ => true
  | _ => false

def Event.isTrigger : Event → Bool
  | Event.triggerCall _ _ _ _ => true
  | _ => false

def Event.isAlert : Event → Bool
  | Event.alertMsg _ => true
  | _ => false

/-- A submission run failed iff it raised a user-visible alert: every abort
path of the handler ends in one and the success path has none. -/
def submissionFailed (evs : List Event) : Bool := evs.any Event.isAlert

/-- A submission run succeeded iff it raised no alert. -/
def submissionSucceeded (evs : List Event) : Bool := !(evs.any Event.isAlert)

/-- The Upload step fails: the promise rejects, the result carries
`isError`/`error`, or no truthy file id can be extracted
(`App.js` lines 157-164). -/
def uploadStepFails (env : Env) : Bool :=
  match env.upload with
  | Except.error _ => true
  | Except.ok ur =>
      ur.isError || ur.error.isSome
        || !(jsStrTruthy (jsOrOptStr (ur.file.map StoredFileMeta.id) ur.id))

/-- The Register step fails: the mutation promise rejects, GraphQL `errors`
is present, or no truthy inserted id comes back (`App.js` lines 171-182). -/
def registerStepFails (env : Env) : Bool :=
  match env.insert with
  | Except.error _ => true
  | Except.ok ins => ins.errors.isSome || !(jsStrTruthy ins.insertedId)

/-! ### Concrete sample data used by the witnesses -/

/-- A valid 2 MB PDF. -/
def sampleFile : JsFile := { name := "report.pdf", size := 2 * 1024 * 1024, type := "application/pdf" }

/-- The 12 MB PDF of Scenario A. -/
def twelveMBPdf : JsFile := { name := "big.pdf", size := 12 * 1024 * 1024, type := "application/pdf" }

def okUpload : UploadResult := { isError := false, error := none, file := some { id := "f1" }, id := none }

def okInsert : InsertResult := { errors := none, insertedId := some "j1" }

def okFetch : FetchResponse := { status := 200, text := some "accepted" }

/-- All three I/O steps succeed. -/
def okEnv : Env := { upload := Except.ok okUpload, insert := Except.ok okInsert, fetchTrigger := Except.ok okFetch }

/-- Upload and Register succeed, Trigger answers HTTP 500 (Scenario C). -/
def http500Env : Env :=
  { upload := Except.ok okUpload, insert := Except.ok okInsert,
    fetchTrigger := Except.ok { status := 500, text := some "Internal Server Error" } }

/-- The object store reports an error. -/
def badUploadEnv : Env :=
  { upload := Except.ok { isError := true, error := some "network down", file := none, id := none },
    insert := Except.ok okInsert, fetchTrigger := Except.ok okFetch }

/-- The registry reports a GraphQL error. -/
def badInsertEnv : Env :=
  { upload := Except.ok okUpload,
    insert := Except.ok { errors := some ["permission denied"], insertedId := none },
    fetchTrigger := Except.ok okFetch }

/-- Idle state with a selected 2 MB PDF and an all-whitespace query draft. -/
def readyState : AppState :=
  { isProcessing := false, selectedFile := some sampleFile, userQuery := "  ",
    uploadProgress := 0, progressMessage := "", selectedChatId := none }

/-- Sample snapshot rows: two jobs of user `u1`, one of user `u2`. -/
def chatJ1 : Chat :=
  { id := "j1", file_name := "report.pdf", status := "processing", analysis_result := none,
    created_at := 30, file_id := "f1", user_id := "u1", query := "q1" }

def chatJ2 : Chat :=
  { id := "j2", file_name := "old.pdf", status := "completed", analysis_result := some "fine",
    created_at := 20, file_id := "f2", user_id := "u1", query := "q2" }

def chatOther : Chat :=
  { id := "j9", file_name := "other.pdf", status := "pending", analysis_result := none,
    created_at := 10, file_id := "f9", user_id := "u2", query := "q9" }

def sampleSnapshot : List Chat := [chatJ1, chatJ2, chatOther]

/-! ### Claims -/

/-- C1: the "currently displayed job" is stored only as an identifier
(`AppState.selectedChatId : Option String` — the state holds no cached chat
fields), and on every render the displayed status is re-derived by pure
lookup into the latest subscription snapshot: the rendered status equals
`Chat.status` of `selectedChat` applied to the live filtered collection, and
any chat so displayed is a row of that snapshot whose `id` is the selected
identifier — never a detached copy or the submission's local progress
state. -/
theorem displayed_status_is_pure_lookup_into_latest_snapshot :
    ∀ (data : Option (List Chat)) (userId sel : Option String),
      displayedStatus data userId sel = (selectedChat (myChats data userId) sel).map Chat.status ∧
      ∀ chat, selectedChat (myChats data userId) sel = some chat →
        sel = some chat.id ∧ chat ∈ myChats data userId ∧ chat ∈ data.getD [] := by
  intro data userId sel
  constructor
  · unfold displayedStatus renderMain
    cases h : selectedChat (myChats data userId) sel <;> simp [h]
  · intro chat h
    unfold selectedChat at h
    have hp := List.find?_some h
    have hm := List.mem_of_find?_eq_some h
    have hid : some chat.id = sel := by simpa using hp
    exact ⟨hid.symm, hm, List.mem_of_mem_filter hm⟩

theorem displayed_status_is_pure_lookup_into_latest_snapshot_witness :
    displayedStatus (some sampleSnapshot) (some "u1") (some "j1") = some "processing" ∧
    chatJ1 ∈ myChats (some sampleSnapshot) (some "u1") := by
  have h := displayed_status_is_pure_lookup_into_latest_snapshot (some sampleSnapshot)
    (some "u1") (some "j1")
  have hfind : selectedChat (myChats (some sampleSnapshot) (some "u1")) (some "j1")
      = some chatJ1 := by decide
  exact ⟨by rw [h.1, hfind]; rfl, (h.2 chatJ1 hfind).2.1⟩

/-- C6: the Validator (a pure total Lean function, hence no side effects)
returns the `no_file_selected` message when no file is given; the too-large
message carrying the configured limit and the actual size in MB to two
decimals when the size exceeds the limit; the unsupported-type message
listing the allowed types when the size is within the limit but the declared
media type is not allowed; on the 12 MB PDF of Scenario A against the
default 10 MB / PDF-only configuration it returns the too-large result with
`12.00` MB, and `handleFileChange` then only alerts: the draft state is
unchanged and the trace contains no upload or other network event. -/
theorem validator_rejects_invalid_files_without_upload :
    (∀ options, validateFile none options = { valid := false, error := some "No file selected" }) ∧
    (∀ (f : JsFile) options, ((f.size : ℚ) / (1024 * 1024)) > options.maxSizeMB →
        validateFile (some f) options =
          { valid := false,
            error := some ("File size exceeds " ++ toString options.maxSizeMB ++ "MB limit ("
              ++ toFixed2 ((f.size : ℚ) / (1024 * 1024)) ++ "MB)") }) ∧
    (∀ (f : JsFile) options, ¬ ((f.size : ℚ) / (1024 * 1024)) > options.maxSizeMB →
        options.allowedTypes.contains f.type = false →
        validateFile (some f) options =
          { valid := false,
            error := some ("File type not allowed. Accepted: "
              ++ String.intercalate ", " options.allowedTypes) }) ∧
    validateFile (some twelveMBPdf) defaultValidateOptions =
      { valid := false, error := some "File size exceeds 10MB limit (12.00MB)" } ∧
    (∀ s, handleFileChange (some twelveMBPdf) s =
      (s, [Event.alertMsg "File size exceeds 10MB limit (12.00MB)"])) := by
  have hbig : validateFile (some twelveMBPdf) defaultValidateOptions =
      { valid := false, error := some "File size exceeds 10MB limit (12.00MB)" } := by
    with_unfolding_all rfl
  refine ⟨fun options => rfl, ?_, ?_, hbig, ?_⟩
  · intro f options h
    simp only [validateFile]
    rw [if_pos h]
  · intro f options h1 h2
    simp only [validateFile]
    rw [if_neg h1, h2]
    rfl
  · intro s
    unfold handleFileChange
    rw [hbig]
    simp

theorem validator_rejects_invalid_files_without_upload_witness :
    ((twelveMBPdf.size : ℚ) / (1024 * 1024)) > defaultValidateOptions.maxSizeMB ∧
    validateFile (some twelveMBPdf) defaultValidateOptions =
      { valid := false,
        error := some ("File size exceeds " ++ toString defaultValidateOptions.maxSizeMB
          ++ "MB limit (" ++ toFixed2 ((twelveMBPdf.size : ℚ) / (1024 * 1024)) ++ "MB)") } ∧
    handleFileChange (some twelveMBPdf) readyState =
      (readyState, [Event.alertMsg "File size exceeds 10MB limit (12.00MB)"]) := by
  have hgt : ((twelveMBPdf.size : ℚ) / (1024 * 1024)) > defaultValidateOptions.maxSizeMB := by
    with_unfolding_all decide
  exact ⟨hgt,
    validator_rejects_invalid_files_without_upload.2.1 twelveMBPdf defaultValidateOptions hgt,
    validator_rejects_invalid_files_without_upload.2.2.2.2 readyState⟩

/-- C8: for every subscription snapshot the projector exposes exactly the
rows whose `user_id` equals the current user, as an order-preserving
sublist of the snapshot (hence in the snapshot's `createdAt`-descending
order whenever the snapshot is so ordered), together with the channel's own
`loading`/`error` flags passed through unchanged; no other user's row is
ever a member of the exposed sequence. -/
theorem projector_exposes_exactly_current_users_rows :
    ∀ (data : Option (List Chat)) (subLoading : Bool) (subError userId : Option String),
      (∀ chat, chat ∈ (projector data subLoading subError userId).chats ↔
          chat ∈ data.getD [] ∧ some chat.user_id = userId) ∧
      (projector data subLoading subError userId).chats.Sublist (data.getD []) ∧
      ((data.getD []).Pairwise createdDesc →
        (projector data subLoading subError userId).chats.Pairwise createdDesc) ∧
      (projector data subLoading subError userId).subLoading = subLoading ∧
      (projector data subLoading subError userId).subError = subError := by
  intro data subLoading subError userId
  refine ⟨?_, List.filter_sublist _, ?_, rfl, rfl⟩
  · intro chat
    simp [projector, myChats, List.mem_filter]
  · intro h
    exact h.sublist (List.filter_sublist _)

theorem projector_exposes_exactly_current_users_rows_witness :
    (chatJ1 ∈ (projector (some sampleSnapshot) false none (some "u1")).chats ∧
      chatOther ∉ (projector (some sampleSnapshot) false none (some "u1")).chats) ∧
    (projector (some sampleSnapshot) false none (some "u1")).chats.Pairwise createdDesc := by
  have h := projector_exposes_exactly_current_users_rows (some sampleSnapshot) false none
    (some "u1")
  refine ⟨⟨(h.1 chatJ1).2 ⟨by decide, rfl⟩, fun hmem => ?_⟩, h.2.2.1 ?_⟩
  · have hc := (h.1 chatOther).1 hmem
    simp [chatOther] at hc
  · decide

/-- C9: selection is a total pure function (`selectedChat` is defined for
every job list and identifier); when the selected identifier matches no row
of the current snapshot it yields `none` rather than a crash, and the UI
then renders the fallback workspace — no job view and no job status — so a
missing row cannot fail the render. -/
theorem absent_selection_yields_null_and_fallback :
    ∀ (data : Option (List Chat)) (userId sel : Option String),
      ((∀ c ∈ myChats data userId, some c.id ≠ sel) →
        selectedChat (myChats data userId) sel = none) ∧
      (selectedChat (myChats data userId) sel = none →
        renderMain data userId sel = MainView.uploadWorkspace ∧
        displayedStatus data userId sel = none) := by
  intro data userId sel
  constructor
  · intro h
    unfold selectedChat
    rw [List.find?_eq_none]
    intro c hc
    simpa using h c hc
  · intro h
    exact ⟨by simp [renderMain, h], by simp [displayedStatus, renderMain, h]⟩

theorem absent_selection_yields_null_and_fallback_witness :
    selectedChat (myChats (some sampleSnapshot) (some "u1")) (some "zzz") = none ∧
    renderMain (some sampleSnapshot) (some "u1") (some "zzz") = MainView.uploadWorkspace := by
  have h := absent_selection_yields_null_and_fallback (some sampleSnapshot) (some "u1")
    (some "zzz")
  have hn : selectedChat (myChats (some sampleSnapshot) (some "u1")) (some "zzz") = none :=
    h.1 (by decide)
  exact ⟨hn, (h.2 hn).1⟩

/-- C2: every successful submission (one that raises no error alert) issues
exactly this trace: one upload, then exactly one registry insert — the
`INSERT_CHAT` document, which hard-codes `status: "pending"` — and then the
single Trigger call; in particular the Job row is created with `status =
pending` and its creation strictly precedes the Trigger request. -/
theorem successful_submission_inserts_pending_once_before_trigger :
    ∀ (env : Env) (userId : Option String) (s : AppState),
      submissionSucceeded (handleUploadAndAnalyze env userId s).2 = true →
      ∃ file uid fileId chatId,
        s.selectedFile = some file ∧ userId = some uid ∧
        (handleUploadAndAnalyze env userId s).2 =
          [Event.uploadCall file,
            Event.insertChat fileId file.name "pending" (finalQuery s.userQuery),
            Event.triggerCall chatId fileId uid (finalQuery s.userQuery)] := by
  intro env userId s h
  unfold submissionSucceeded at h
  unfold handleUploadAndAnalyze at h ⊢
  repeat' split at h
  all_goals simp_all [failSubmission, errorAlert, Event.isAlert, INSERT_CHAT_event]

theorem successful_submission_inserts_pending_once_before_trigger_witness :
    ∃ file uid fileId chatId,
      readyState.selectedFile = some file ∧ (some "u1" : Option String) = some uid ∧
      (handleUploadAndAnalyze okEnv (some "u1") readyState).2 =
        [Event.uploadCall file,
          Event.insertChat fileId file.name "pending" (finalQuery readyState.userQuery),
          Event.triggerCall chatId fileId uid (finalQuery readyState.userQuery)] :=
  successful_submission_inserts_pending_once_before_trigger okEnv (some "u1") readyState
    (by decide)

/-- C3: when the submission reaches the Trigger step and the analysis
service answers a non-success status (e.g. HTTP 500), the whole trace is
upload, the one `pending` insert, a single Trigger call (no retry), and one
error alert carrying the response status code and body; the trace contains
no registry write other than that insert — the created Job row is neither
deleted nor modified, so it stays `pending` until the external service
changes it. -/
theorem trigger_failure_reported_without_retry_or_rollback :
    ∀ (env : Env) (userId : Option String) (s : AppState) (file : JsFile) (uid : String)
      (response : FetchResponse),
      s.selectedFile = some file → userId = some uid →
      env.fetchTrigger = Except.ok response → response.respOk = false →
      (∃ c f q, Event.triggerCall c f uid q ∈ (handleUploadAndAnalyze env userId s).2) →
      ∃ fileId chatId,
        (handleUploadAndAnalyze env userId s).2 =
          [Event.uploadCall file,
            Event.insertChat fileId file.name "pending" (finalQuery s.userQuery),
            Event.triggerCall chatId fileId uid (finalQuery s.userQuery),
            errorAlert ("Analysis service failed: " ++ toString response.status ++ " - "
              ++ response.text.getD "Unknown error")] ∧
        ((handleUploadAndAnalyze env userId s).2.filter Event.isRegistryWrite) =
          [Event.insertChat fileId file.name "pending" (finalQuery s.userQuery)] ∧
        ((handleUploadAndAnalyze env userId s).2.countP Event.isTrigger) = 1 := by
  intro env userId s file uid response hsf huid hfetch hok hreach
  unfold handleUploadAndAnalyze at hreach ⊢
  repeat' split at hreach
  all_goals simp_all [failSubmission, errorAlert, INSERT_CHAT_event, Event.isRegistryWrite,
    Event.isTrigger]

theorem trigger_failure_reported_without_retry_or_rollback_witness :
    ∃ fileId chatId,
      (handleUploadAndAnalyze http500Env (some "u1") readyState).2 =
        [Event.uploadCall sampleFile,
          Event.insertChat fileId sampleFile.name "pending" (finalQuery readyState.userQuery),
          Event.triggerCall chatId fileId "u1" (finalQuery readyState.userQuery),
          errorAlert ("Analysis service failed: "
            ++ toString (500 : Nat) ++ " - "
            ++ (some "Internal Server Error").getD "Unknown error")] ∧
      ((handleUploadAndAnalyze http500Env (some "u1") readyState).2.filter
        Event.isRegistryWrite) =
        [Event.insertChat fileId sampleFile.name "pending" (finalQuery readyState.userQuery)] ∧
      ((handleUploadAndAnalyze http500Env (some "u1") readyState).2.countP Event.isTrigger)
        = 1 :=
  trigger_failure_reported_without_retry_or_rollback http500Env (some "u1") readyState
    sampleFile "u1" { status := 500, text := some "Internal Server Error" }
    rfl rfl rfl (by decide)
    ⟨"j1", "f1", finalQuery readyState.userQuery, by decide⟩

/-- C4: when the Upload step fails — the promise rejects, the store reports
an error, or no file identifier comes back — the whole sequence aborts: the
trace is the upload attempt followed by one error alert only, with zero
registry writes (no Job row is created), and the selected-job identifier is
untouched. -/
theorem upload_failure_aborts_with_no_registry_write :
    ∀ (env : Env) (userId : Option String) (s : AppState) (file : JsFile) (uid : String),
      s.selectedFile = some file → userId = some uid →
      uploadStepFails env = true →
      ∃ msg, (handleUploadAndAnalyze env userId s).2
          = [Event.uploadCall file, Event.alertMsg msg] ∧
        ((handleUploadAndAnalyze env userId s).2.filter Event.isRegistryWrite) = [] ∧
        (handleUploadAndAnalyze env userId s).1.selectedChatId = s.selectedChatId := by
  intro env userId s file uid hsf huid hfail
  unfold uploadStepFails at hfail
  unfold handleUploadAndAnalyze
  repeat' split
  all_goals simp_all [failSubmission, errorAlert, Event.isRegistryWrite, jsStrTruthy, jsOrOptStr]

theorem upload_failure_aborts_with_no_registry_write_witness :
    ∃ msg, (handleUploadAndAnalyze badUploadEnv (some "u1") readyState).2
        = [Event.uploadCall sampleFile, Event.alertMsg msg] ∧
      ((handleUploadAndAnalyze badUploadEnv (some "u1") readyState).2.filter
        Event.isRegistryWrite) = [] ∧
      (handleUploadAndAnalyze badUploadEnv (some "u1") readyState).1.selectedChatId
        = readyState.selectedChatId :=
  upload_failure_aborts_with_no_registry_write badUploadEnv (some "u1") readyState
    sampleFile "u1" rfl rfl (by decide)

/-- C5: when the Register step fails — the mutation promise rejects, GraphQL
errors are present, or no job identifier is returned — the run never issues
a Trigger call to the remote analysis service (for any state and session,
including runs that already failed earlier). -/
theorem register_failure_issues_no_trigger :
    ∀ (env : Env) (userId : Option String) (s : AppState),
      registerStepFails env = true →
      ((handleUploadAndAnalyze env userId s).2.filter Event.isTrigger) = [] := by
  intro env userId s hfail
  unfold registerStepFails at hfail
  unfold handleUploadAndAnalyze
  repeat' split
  all_goals simp_all [failSubmission, errorAlert, Event.isTrigger, jsStrTruthy,
    INSERT_CHAT_event, Event.isRegistryWrite]

theorem register_failure_issues_no_trigger_witness :
    ((handleUploadAndAnalyze badInsertEnv (some "u1") readyState).2.filter Event.isTrigger)
      = [] :=
  register_failure_issues_no_trigger badInsertEnv (some "u1") readyState (by decide)

/-- C7: every registry insert a run ever issues carries the effective query:
the user's draft with surrounding whitespace trimmed, or the fixed default
string `"Analyze financial trends and risks"` exactly when the trimmed
draft is empty (and its status field is always `"pending"`). -/
theorem register_called_with_trimmed_or_default_query :
    ∀ (env : Env) (userId : Option String) (s : AppState) (fid nm st q : String),
      Event.insertChat fid nm st q ∈ (handleUploadAndAnalyze env userId s).2 →
      q = finalQuery s.userQuery ∧ st = "pending" ∧
      (jsTrim s.userQuery = "" → q = "Analyze financial trends and risks") ∧
      (jsTrim s.userQuery ≠ "" → q = jsTrim s.userQuery) := by
  intro env userId s fid nm st q hmem
  unfold handleUploadAndAnalyze at hmem
  repeat' split at hmem
  all_goals simp_all [failSubmission, errorAlert, INSERT_CHAT_event, finalQuery]

theorem register_called_with_trimmed_or_default_query_witness :
    finalQuery readyState.userQuery = "Analyze financial trends and risks" ∧
    jsTrim readyState.userQuery = "" := by
  have h := register_called_with_trimmed_or_default_query okEnv (some "u1") readyState
    "f1" "report.pdf" "pending" (finalQuery readyState.userQuery) (by decide)
  have htrim : jsTrim readyState.userQuery = "" := by decide
  exact ⟨(h.2.2.1 htrim).symm.trans h.1, htrim⟩

/-- C10: every failed submission (any run that raises an error alert,
including the pre-flight guard) leaves the client-local draft untouched:
the selected file, the query text and the selected job identifier keep
their pre-submission values, so only the processing flag, the progress
scalar and the progress message can differ and the user can retry without
re-selecting the file or retyping the query. -/
theorem failed_submission_preserves_draft_state :
    ∀ (env : Env) (userId : Option String) (s : AppState),
      submissionFailed (handleUploadAndAnalyze env userId s).2 = true →
      (handleUploadAndAnalyze env userId s).1.selectedFile = s.selectedFile ∧
      (handleUploadAndAnalyze env userId s).1.userQuery = s.userQuery ∧
      (handleUploadAndAnalyze env userId s).1.selectedChatId = s.selectedChatId := by
  intro env userId s h
  unfold submissionFailed at h
  unfold handleUploadAndAnalyze at h ⊢
  repeat' split at h
  all_goals simp_all [failSubmission, errorAlert, Event.isAlert, INSERT_CHAT_event]

theorem failed_submission_preserves_draft_state_witness :
    (handleUploadAndAnalyze badUploadEnv (some "u1") readyState).1.selectedFile
      = readyState.selectedFile ∧
    (handleUploadAndAnalyze badUploadEnv (some "u1") readyState).1.userQuery
      = readyState.userQuery ∧
    (handleUploadAndAnalyze badUploadEnv (some "u1") readyState).1.selectedChatId
      = readyState.selectedChatId :=
  failed_submission_preserves_draft_state badUploadEnv (some "u1") readyState (by decide)

end Winfigy
